import Mathlib

/-!
Verification development for repo_miner.py, a command-line tool that fetches
commit and issue data from the GitHub API, normalizes each record into a
fixed-shape row, and writes the resulting table to a CSV file.

The embedding is shallow: the two fetch functions become Lean functions over
an explicit model of the process environment (`String → Option String`) and of
the upstream API (`GithubAPI`, whose methods may fail, modelling transport
errors).  Python datetimes are modelled as integer seconds since an epoch
(GitHub timestamps have second granularity); Python `timedelta.days` is
floor division by 86400 (`Int.fdiv`), matching the normalization rules of
`datetime.timedelta`.  Each fetch also produces a trace of client/network
events so that statements about "no network call" and about which credential
is handed to the client can be expressed.
-/

/-- A single cell of the output table: pandas `NaN`/`None` markers collapse to
`Cell.NA`; strings and integers are kept as such. -/
inductive Cell where
  | NA : Cell
  | str : String → Cell
  | int : Int → Cell
deriving DecidableEq, Repr

/-- A pandas `DataFrame` at the granularity the tool observes: an ordered list
of column names and the list of rows (each row a list of cells). -/
structure DataFrame where
  columns : List String
  rows : List (List Cell)
deriving DecidableEq, Repr

/-- The nested authoring identity of a commit (`commit.commit.author` in the
upstream client): name, email and an authoring date in epoch seconds. -/
structure CommitAuthor where
  name : String
  email : String
  date : Int
deriving DecidableEq, Repr

/-- An upstream commit as the API client presents it: `sha`, an optional
nested authoring identity, and the full (possibly multi-line) message. -/
structure UpstreamCommit where
  sha : String
  author : Option CommitAuthor
  message : String
deriving DecidableEq, Repr

/-- An upstream issue as the API client presents it.  `user` is the login of
the optional user object; `created_at` and `closed_at` are optional datetimes
in epoch seconds; `pull_request` is true when the record carries a
pull-request marker (Python: `issue.pull_request is not None`). -/
structure UpstreamIssue where
  id : Int
  number : Int
  title : String
  user : Option String
  state : String
  created_at : Option Int
  closed_at : Option Int
  comments : Int
  pull_request : Bool
deriving DecidableEq, Repr

/-- Authentication with which the `Github(...)` client object is constructed. -/
inductive ClientAuth where
  | anonymous : ClientAuth
  | token : String → ClientAuth
deriving DecidableEq, Repr

/-- Observable client/network events of one fetch call, in order. -/
inductive Event where
  | clientInit : ClientAuth → Event
  | getRepo : String → Event
  | getCommits : String → Event
  | getIssues : String → String → Event
deriving DecidableEq, Repr

/-- The upstream API, mockable.  Each method may fail, modelling transport or
API errors raised by the underlying client; a failure during the (lazy)
enumeration of a paginated collection discards all partially built records,
so the enumeration is modelled atomically as `Except`. -/
structure GithubAPI where
  repoLookup : String → Except String Unit
  commitsOf : String → Except String (List UpstreamCommit)
  issuesOf : String → String → Except String (List UpstreamIssue)

/-- Python truthiness of an optional string read from the environment:
`None` and the empty string are falsy. -/
def tokenTruthy : Option String → Bool
  | none => false
  | some s => s != ""

/-- Models `datetime.isoformat()`: an injective rendering of the timestamp.
No claim depends on the concrete format, only on presence/absence. -/
def isoformat (t : Int) : String := toString t

/-- Characters of the message up to (excluding) the first line break:
`message.split("\n")[0]` in the source. -/
def firstLineAux : List Char → List Char
  | [] => []
  | c :: rest => if c = '\n' then [] else c :: firstLineAux rest

/-- First line of a string, the Python `s.split("\n")[0]`. -/
def firstLine (s : String) : String := { data := firstLineAux s.data }

/-- The flat commit record built for one upstream commit (source lines 40-47):
`author`, `email`, `date` come from the nested authoring identity when it is
present (Python truthiness of an object: present iff not `None`), else `None`;
`message` is the first line only. -/
structure CommitRecord where
  sha : String
  author : Option String
  email : Option String
  date : Option String
  message : String
deriving DecidableEq, Repr

def normalize_commit (c : UpstreamCommit) : CommitRecord :=
  { sha := c.sha
  , author := c.author.map (fun a => a.name)
  , email := c.author.map (fun a => a.email)
  , date := c.author.map (fun a => isoformat a.date)
  , message := firstLine c.message }

/-- Loop cutoff test of `fetch_commits` (source line 38):
`max_commits is not None and i >= max_commits`. -/
def commitBreak : Option Int → Nat → Bool
  | none, _ => false
  | some m, i => decide ((i : Int) ≥ m)

/-- The enumeration loop of `fetch_commits` (source lines 36-47), carrying the
`enumerate` index explicitly. -/
def commitLoop (max_commits : Option Int) : Nat → List UpstreamCommit → List CommitRecord
  | _, [] => []
  | i, c :: rest =>
    if commitBreak max_commits i then []
    else normalize_commit c :: commitLoop max_commits (i + 1) rest

def commitColumns : List String := ["sha", "author", "email", "date", "message"]

def optStrCell : Option String → Cell
  | none => Cell.NA
  | some s => Cell.str s

def optIntCell : Option Int → Cell
  | none => Cell.NA
  | some n => Cell.int n

def commitRow (r : CommitRecord) : List Cell :=
  [Cell.str r.sha, optStrCell r.author, optStrCell r.email, optStrCell r.date, Cell.str r.message]

/-- `pd.DataFrame(records, columns=["sha","author","email","date","message"])`
(source line 50): the column list is forced explicitly, also when `records`
is empty. -/
def mkCommitDF (records : List CommitRecord) : DataFrame :=
  { columns := commitColumns, rows := records.map commitRow }

/-- `fetch_commits(repo_name, max_commits)` (source lines 18-50), over an
explicit environment and API.  Returns the result (the DataFrame, or the
message of the raised error) together with the trace of client/network
events, in order. -/
def fetch_commits (getenv : String → Option String) (api : GithubAPI)
    (repo_name : String) (max_commits : Option Int) :
    Except String DataFrame × List Event :=
  let token := getenv "GITHUB_TOKEN"
  if tokenTruthy token then
    let tok := token.getD ""
    match api.repoLookup repo_name with
    | Except.error e =>
      (Except.error e, [Event.clientInit (ClientAuth.token tok), Event.getRepo repo_name])
    | Except.ok _ =>
      match api.commitsOf repo_name with
      | Except.error e =>
        (Except.error e,
          [Event.clientInit (ClientAuth.token tok), Event.getRepo repo_name,
            Event.getCommits repo_name])
      | Except.ok commits =>
        (Except.ok (mkCommitDF (commitLoop max_commits 0 commits)),
          [Event.clientInit (ClientAuth.token tok), Event.getRepo repo_name,
            Event.getCommits repo_name])
  else
    (Except.error "GITHUB_TOKEN environment variable not set", [])

/-- The flat issue record built for one accepted upstream issue (source lines
78-100).  `open_duration_days` is `(closed_at - created_at).days` when both
datetimes are present: Python `timedelta.days` is floor division of the total
seconds by 86400. -/
structure IssueRecord where
  id : Int
  number : Int
  title : String
  user : Option String
  state : String
  created_at : Option String
  closed_at : Option String
  comments : Int
  open_duration_days : Option Int
deriving DecidableEq, Repr

def normalize_issue (iss : UpstreamIssue) : IssueRecord :=
  { id := iss.id
  , number := iss.number
  , title := iss.title
  , user := iss.user
  , state := iss.state
  , created_at := iss.created_at.map isoformat
  , closed_at := iss.closed_at.map isoformat
  , comments := iss.comments
  , open_duration_days :=
      match iss.created_at, iss.closed_at with
      | some c, some cl => some (Int.fdiv (cl - c) 86400)
      | _, _ => none }

/-- Loop cutoff test of `fetch_issues` (source line 71):
`max_issues and idx >= max_issues` — note Python truthiness, under which a
limit of `0` (or `None`) never triggers the cutoff. -/
def issueBreak : Option Int → Nat → Bool
  | none, _ => false
  | some m, idx => (m != 0) && decide ((idx : Int) ≥ m)

/-- The enumeration loop of `fetch_issues` (source lines 69-100): cutoff test
first, then the pull-request filter (a skipped pull request still advances the
`enumerate` index). -/
def issueLoop (max_issues : Option Int) : Nat → List UpstreamIssue → List IssueRecord
  | _, [] => []
  | idx, iss :: rest =>
    if issueBreak max_issues idx then []
    else if iss.pull_request then issueLoop max_issues (idx + 1) rest
    else normalize_issue iss :: issueLoop max_issues (idx + 1) rest

def issueColumns : List String :=
  ["id", "number", "title", "user", "state", "created_at", "closed_at",
    "comments", "open_duration_days"]

def issueRow (r : IssueRecord) : List Cell :=
  [Cell.int r.id, Cell.int r.number, Cell.str r.title, optStrCell r.user,
    Cell.str r.state, optStrCell r.created_at, optStrCell r.closed_at,
    Cell.int r.comments, optIntCell r.open_duration_days]

/-- `pd.DataFrame(records)` (source line 103): with no explicit column list,
pandas infers the columns from the record dicts (all records share the same
keys in the same insertion order), and an empty record list yields a
DataFrame with no columns at all. -/
def mkIssueDF (records : List IssueRecord) : DataFrame :=
  { columns := if records.isEmpty then [] else issueColumns
  , rows := records.map issueRow }

/-- `fetch_issues(repo_name, state, max_issues)` (source lines 53-103).  The
credential is optional: a falsy token (absent or empty) yields an anonymous
client rather than an error. -/
def fetch_issues (getenv : String → Option String) (api : GithubAPI)
    (repo_name : String) (state : String) (max_issues : Option Int) :
    Except String DataFrame × List Event :=
  let token := getenv "GITHUB_TOKEN"
  let auth := if tokenTruthy token then ClientAuth.token (token.getD "")
              else ClientAuth.anonymous
  match api.repoLookup repo_name with
  | Except.error e => (Except.error e, [Event.clientInit auth, Event.getRepo repo_name])
  | Except.ok _ =>
    match api.issuesOf repo_name state with
    | Except.error e =>
      (Except.error e,
        [Event.clientInit auth, Event.getRepo repo_name, Event.getIssues repo_name state])
    | Except.ok issues =>
      (Except.ok (mkIssueDF (issueLoop max_issues 0 issues)),
        [Event.clientInit auth, Event.getRepo repo_name, Event.getIssues repo_name state])

/-- Rendering of one cell in the CSV output; quoting rules are irrelevant to
every claim and omitted. -/
def renderCell : Cell → String
  | Cell.NA => ""
  | Cell.str s => s
  | Cell.int n => toString n

/-- `df.to_csv(out, index=False)` content: header row then one line per row,
comma-delimited, no index column. -/
def to_csv (df : DataFrame) : String :=
  String.intercalate "\n"
    (String.intercalate "," df.columns ::
      df.rows.map (fun r => String.intercalate "," (r.map renderCell))) ++ "\n"

/-- A CLI invocation after argument parsing (source lines 117-130). -/
inductive Command where
  | fetchCommits : String → Option Int → String → Command
  | fetchIssues : String → String → Option Int → String → Command

/-- The file system as a map from paths to contents. -/
def FS := String → Option String

def writeFile (fs : FS) (path content : String) : FS :=
  fun p => if p = path then some content else fs p

/-- The dispatch of `main` (source lines 135-143): run the fetch, and only on
success write the CSV to the output path and print the summary line.  A
raised error propagates uncaught (non-zero exit), and the write never
happens. -/
def main_run (getenv : String → Option String) (api : GithubAPI)
    (cmd : Command) (fs : FS) : FS × Except String String :=
  match cmd with
  | Command.fetchCommits repo maxc out =>
    match (fetch_commits getenv api repo maxc).1 with
    | Except.error e => (fs, Except.error e)
    | Except.ok df =>
      (writeFile fs out (to_csv df),
        Except.ok ("Saved " ++ toString df.rows.length ++ " commits to " ++ out))
  | Command.fetchIssues repo state maxi out =>
    match (fetch_issues getenv api repo state maxi).1 with
    | Except.error e => (fs, Except.error e)
    | Except.ok df =>
      (writeFile fs out (to_csv df),
        Except.ok ("Saved " ++ toString df.rows.length ++ " issues to " ++ out))

/-! ## Concrete data for evaluation

Sample environments, upstream records and mock APIs, used to evaluate the
model on concrete inputs (the spec's own examples among them). -/

def envNoTok : String → Option String := fun _ => none

def envEmptyTok : String → Option String := fun _ => some ""

def envTok : String → Option String := fun _ => some "secret123"

def commitA : UpstreamCommit :=
  { sha := "a1"
  , author := some { name := "Alice", email := "alice@example.com", date := 100 }
  , message := "fix bug\n\ndetails" }

def commitB : UpstreamCommit :=
  { sha := "b2"
  , author := some { name := "Bob", email := "bob@example.com", date := 200 }
  , message := "add feature" }

def commitC : UpstreamCommit :=
  { sha := "c3", author := none, message := "typo" }

def issOpen : UpstreamIssue :=
  { id := 11, number := 1, title := "crash on start", user := some "carol"
  , state := "closed", created_at := some 0, closed_at := some 345600
  , comments := 2, pull_request := false }

def issPR : UpstreamIssue :=
  { id := 12, number := 2, title := "tracked change", user := some "dave"
  , state := "open", created_at := some 0, closed_at := none
  , comments := 0, pull_request := true }

def issNeg : UpstreamIssue :=
  { id := 13, number := 3, title := "clock skew", user := none
  , state := "closed", created_at := some 86401, closed_at := some 0
  , comments := 0, pull_request := false }

def apiSample : GithubAPI :=
  { repoLookup := fun _ => Except.ok ()
  , commitsOf := fun _ => Except.ok [commitA, commitB, commitC]
  , issuesOf := fun _ _ => Except.ok [issPR, issOpen] }

def apiOneIssue : GithubAPI :=
  { repoLookup := fun _ => Except.ok ()
  , commitsOf := fun _ => Except.ok []
  , issuesOf := fun _ _ => Except.ok [issOpen] }

def apiEmptyIssues : GithubAPI :=
  { repoLookup := fun _ => Except.ok ()
  , commitsOf := fun _ => Except.ok []
  , issuesOf := fun _ _ => Except.ok [] }

def fsEmpty : FS := fun _ => none

/-! ## Loop characterization lemmas -/

theorem commitBreak_some_iff (m : Int) (i : Nat) :
    commitBreak (some m) i = true ↔ m.toNat ≤ i := by
  simp only [commitBreak, ge_iff_le, decide_eq_true_eq]
  omega

theorem commitLoop_some (m : Int) :
    ∀ (commits : List UpstreamCommit) (idx : Nat),
      commitLoop (some m) idx commits =
        (commits.take (m.toNat - idx)).map normalize_commit := by
  intro commits
  induction commits with
  | nil => intro idx; simp [commitLoop]
  | cons c rest ih =>
    intro idx
    by_cases h : m.toNat ≤ idx
    · have hb : commitBreak (some m) idx = true := (commitBreak_some_iff m idx).mpr h
      have hz : m.toNat - idx = 0 := by omega
      simp [commitLoop, hb, hz]
    · have hb : commitBreak (some m) idx = false := by
        cases heq : commitBreak (some m) idx
        · rfl
        · exact absurd ((commitBreak_some_iff m idx).mp heq) h
      have hs : m.toNat - idx = (m.toNat - (idx + 1)) + 1 := by omega
      simp [commitLoop, hb, hs, List.take_succ_cons, ih (idx + 1)]

theorem commitLoop_none :
    ∀ (commits : List UpstreamCommit) (idx : Nat),
      commitLoop none idx commits = commits.map normalize_commit := by
  intro commits
  induction commits with
  | nil => intro idx; simp [commitLoop]
  | cons c rest ih => intro idx; simp [commitLoop, commitBreak, ih (idx + 1)]

theorem issueBreak_some_iff (m : Int) (hm : m ≠ 0) (idx : Nat) :
    issueBreak (some m) idx = true ↔ m.toNat ≤ idx := by
  simp only [issueBreak, Bool.and_eq_true, bne_iff_ne, ne_eq, ge_iff_le,
    decide_eq_true_eq]
  omega

theorem issueLoop_some (m : Int) (hm : m ≠ 0) :
    ∀ (issues : List UpstreamIssue) (idx : Nat),
      issueLoop (some m) idx issues =
        ((issues.take (m.toNat - idx)).filter
          (fun i => !i.pull_request)).map normalize_issue := by
  intro issues
  induction issues with
  | nil => intro idx; simp [issueLoop]
  | cons iss rest ih =>
    intro idx
    by_cases h : m.toNat ≤ idx
    · have hb : issueBreak (some m) idx = true := (issueBreak_some_iff m hm idx).mpr h
      have hz : m.toNat - idx = 0 := by omega
      simp [issueLoop, hb, hz]
    · have hb : issueBreak (some m) idx = false := by
        cases heq : issueBreak (some m) idx
        · rfl
        · exact absurd ((issueBreak_some_iff m hm idx).mp heq) h
      have hs : m.toNat - idx = (m.toNat - (idx + 1)) + 1 := by omega
      by_cases hpr : iss.pull_request
      · simp [issueLoop, hb, hs, List.take_succ_cons, List.filter, hpr, ih (idx + 1)]
      · simp [issueLoop, hb, hs, List.take_succ_cons, List.filter, hpr, ih (idx + 1)]

theorem issueLoop_none :
    ∀ (issues : List UpstreamIssue) (idx : Nat),
      issueLoop none idx issues =
        (issues.filter (fun i => !i.pull_request)).map normalize_issue := by
  intro issues
  induction issues with
  | nil => intro idx; simp [issueLoop]
  | cons iss rest ih =>
    intro idx
    by_cases hpr : iss.pull_request
    · simp [issueLoop, issueBreak, List.filter, hpr, ih (idx + 1)]
    · simp [issueLoop, issueBreak, List.filter, hpr, ih (idx + 1)]

theorem issueLoop_zero :
    ∀ (issues : List UpstreamIssue) (idx : Nat),
      issueLoop (some 0) idx issues = issueLoop none idx issues := by
  intro issues
  induction issues with
  | nil => intro idx; simp [issueLoop]
  | cons iss rest ih =>
    intro idx
    simp [issueLoop, issueBreak, ih (idx + 1)]

/-! ## Unfolding lemmas for the fetch functions -/

theorem fetch_commits_ok (getenv : String → Option String) (api : GithubAPI)
    (repo : String) (maxc : Option Int) (df : DataFrame)
    (h : (fetch_commits getenv api repo maxc).1 = Except.ok df) :
    ∃ commits, api.commitsOf repo = Except.ok commits ∧
      df = mkCommitDF (commitLoop maxc 0 commits) := by
  unfold fetch_commits at h
  by_cases ht : tokenTruthy (getenv "GITHUB_TOKEN")
  · simp only [ht, if_true] at h
    cases hr : api.repoLookup repo with
    | error e => rw [hr] at h; simp at h
    | ok u =>
      rw [hr] at h
      cases hc : api.commitsOf repo with
      | error e => rw [hc] at h; simp at h
      | ok commits =>
        rw [hc] at h
        simp only [Except.ok.injEq] at h
        exact ⟨commits, rfl, h.symm⟩
  · simp only [ht, if_false] at h
    simp at h

theorem fetch_issues_ok (getenv : String → Option String) (api : GithubAPI)
    (repo state : String) (maxi : Option Int) (df : DataFrame)
    (h : (fetch_issues getenv api repo state maxi).1 = Except.ok df) :
    ∃ issues, api.issuesOf repo state = Except.ok issues ∧
      df = mkIssueDF (issueLoop maxi 0 issues) := by
  unfold fetch_issues at h
  cases hr : api.repoLookup repo with
  | error e => rw [hr] at h; simp at h
  | ok u =>
    rw [hr] at h
    cases hc : api.issuesOf repo state with
    | error e => rw [hc] at h; simp at h
    | ok issues =>
      rw [hc] at h
      simp only [Except.ok.injEq] at h
      exact ⟨issues, rfl, h.symm⟩

theorem fetch_commits_trace_auth (getenv : String → Option String) (api : GithubAPI)
    (repo : String) (maxc : Option Int) (a : ClientAuth)
    (h : Event.clientInit a ∈ (fetch_commits getenv api repo maxc).2) :
    a = ClientAuth.token ((getenv "GITHUB_TOKEN").getD "") ∧
      tokenTruthy (getenv "GITHUB_TOKEN") = true := by
  unfold fetch_commits at h
  by_cases ht : tokenTruthy (getenv "GITHUB_TOKEN")
  · simp only [ht, if_true] at h
    cases hr : api.repoLookup repo with
    | error e => rw [hr] at h; simp at h; exact ⟨h, ht⟩
    | ok u =>
      rw [hr] at h
      cases hc : api.commitsOf repo with
      | error e => rw [hc] at h; simp at h; exact ⟨h, ht⟩
      | ok commits => rw [hc] at h; simp at h; exact ⟨h, ht⟩
  · simp only [ht, if_false] at h
    simp at h

theorem fetch_issues_trace_auth (getenv : String → Option String) (api : GithubAPI)
    (repo state : String) (maxi : Option Int) (a : ClientAuth)
    (h : Event.clientInit a ∈ (fetch_issues getenv api repo state maxi).2) :
    a = (if tokenTruthy (getenv "GITHUB_TOKEN")
          then ClientAuth.token ((getenv "GITHUB_TOKEN").getD "")
          else ClientAuth.anonymous) := by
  unfold fetch_issues at h
  cases hr : api.repoLookup repo with
  | error e => rw [hr] at h; simp at h; exact h
  | ok u =>
    rw [hr] at h
    cases hc : api.issuesOf repo state with
    | error e => rw [hc] at h; simp at h; exact h
    | ok issues => rw [hc] at h; simp at h; exact h

theorem firstLineAux_eq_takeWhile :
    ∀ l : List Char, firstLineAux l = l.takeWhile (fun ch => ch != '\n') := by
  intro l
  induction l with
  | nil => rfl
  | cons c rest ih =>
    by_cases h : c = '\n'
    · simp [firstLineAux, List.takeWhile_cons, h]
    · simp [firstLineAux, List.takeWhile_cons, h, ih]

/-! ## Claims -/

/-- C1 (counterexample): with `limit = 0` given explicitly, the issue fetch
does NOT return an empty sequence: on an upstream collection holding one
non-pull-request issue it returns that one record, because the Python cutoff
test `max_issues and idx >= max_issues` treats `0` as falsy. -/
theorem C1_counterexample :
    (fetch_issues envNoTok apiOneIssue "octo/repo" "all" (some 0)).1 =
      Except.ok (mkIssueDF [normalize_issue issOpen]) ∧
    (mkIssueDF [normalize_issue issOpen]).rows.length = 1 := by
  exact ⟨rfl, rfl⟩

/-- C1 (amended): a `limit` given explicitly as `0` is treated exactly as an
absent limit: for every environment, API, repository and state, the issue
fetch with `limit = 0` returns the same result and trace as the unbounded
fetch (so the returned sequence is all accepted records, not the empty
sequence). -/
theorem C1_zero_limit_unbounded (getenv : String → Option String)
    (api : GithubAPI) (repo state : String) :
    fetch_issues getenv api repo state (some 0) =
      fetch_issues getenv api repo state none := by
  unfold fetch_issues
  cases hr : api.repoLookup repo with
  | error e => rfl
  | ok u =>
    cases hc : api.issuesOf repo state with
    | error e => rfl
    | ok issues => simp [issueLoop_zero]

/-- C3: whenever the `GITHUB_TOKEN` environment value is falsy (absent or
empty), the commit fetch raises the configuration error
`GITHUB_TOKEN environment variable not set` with an empty event trace: no
client is constructed and no repository or commit request is made. -/
theorem C3_no_token_fails_before_network (getenv : String → Option String)
    (api : GithubAPI) (repo : String) (maxc : Option Int)
    (h : tokenTruthy (getenv "GITHUB_TOKEN") = false) :
    fetch_commits getenv api repo maxc =
      (Except.error "GITHUB_TOKEN environment variable not set",
        ([] : List Event)) := by
  unfold fetch_commits
  simp [h]

/-- C3 witness: with no `GITHUB_TOKEN` in the environment, the commit fetch
against the sample API fails with the configuration error and an empty
trace. -/
theorem C3_no_token_fails_before_network_witness :
    fetch_commits envNoTok apiSample "octo/repo" none =
      (Except.error "GITHUB_TOKEN environment variable not set",
        ([] : List Event)) :=
  C3_no_token_fails_before_network envNoTok apiSample "octo/repo" none rfl

/-- C4: with a truthy token and an upstream collection `commits`, the commit
fetch with `limit = N` (for `0 ≤ N`) emits exactly `min N commits.length`
rows, and with no limit emits exactly `commits.length` rows. -/
theorem C4_commit_row_count (getenv : String → Option String) (api : GithubAPI)
    (repo : String) (commits : List UpstreamCommit) (N : Int)
    (htok : tokenTruthy (getenv "GITHUB_TOKEN") = true)
    (hrepo : api.repoLookup repo = Except.ok ())
    (hcs : api.commitsOf repo = Except.ok commits)
    (_hN : 0 ≤ N) :
    (fetch_commits getenv api repo (some N)).1.map (fun df => df.rows.length) =
      Except.ok (min N.toNat commits.length) ∧
    (fetch_commits getenv api repo none).1.map (fun df => df.rows.length) =
      Except.ok commits.length := by
  unfold fetch_commits
  rw [hrepo, hcs]
  simp only [htok, if_true, Except.map]
  constructor
  · simp [mkCommitDF, commitLoop_some, List.length_take]
  · simp [mkCommitDF, commitLoop_none]

/-- C4 witness: against the sample API (3 upstream commits) with a set token,
`limit = 2` yields exactly `min 2 3 = 2` rows and the unbounded fetch yields
3 rows. -/
theorem C4_commit_row_count_witness :
    (fetch_commits envTok apiSample "octo/repo" (some 2)).1.map
        (fun df => df.rows.length) =
      Except.ok (min (2 : Int).toNat [commitA, commitB, commitC].length) ∧
    (fetch_commits envTok apiSample "octo/repo" none).1.map
        (fun df => df.rows.length) =
      Except.ok [commitA, commitB, commitC].length :=
  C4_commit_row_count envTok apiSample "octo/repo" [commitA, commitB, commitC] 2
    rfl rfl rfl (by decide)

/-- C2 (counterexample): when the issue fetch emits zero records, the
resulting table does not have the nine declared issue columns: it has no
columns at all, because `pd.DataFrame(records)` is built without an explicit
column list (source line 103). -/
theorem C2_counterexample :
    (fetch_issues envNoTok apiEmptyIssues "octo/repo" "all" none).1 =
      Except.ok (mkIssueDF []) ∧
    (mkIssueDF []).columns = [] ∧
    (mkIssueDF []).columns ≠ issueColumns := by
  refine ⟨rfl, rfl, ?_⟩
  decide

/-- C2 (amended): the commit table always has exactly the columns
`sha, author, email, date, message` in order (also with zero records), and
every commit row has exactly that many cells; the issue table has exactly the
columns `id, number, title, user, state, created_at, closed_at, comments,
open_duration_days` in order whenever at least one record is emitted, and
every issue row has exactly that many cells (a missing field appears as the
`NA` cell, never as a dropped column) — but with zero records the issue table
has no columns at all. -/
theorem C2_column_invariant (getenv : String → Option String) (api : GithubAPI)
    (repo state : String) (maxc maxi : Option Int) (dfc dfi : DataFrame)
    (hc : (fetch_commits getenv api repo maxc).1 = Except.ok dfc)
    (hi : (fetch_issues getenv api repo state maxi).1 = Except.ok dfi) :
    dfc.columns = commitColumns ∧
    (∀ row ∈ dfc.rows, row.length = commitColumns.length) ∧
    (dfi.rows ≠ [] → dfi.columns = issueColumns) ∧
    (dfi.rows = [] → dfi.columns = []) ∧
    (∀ row ∈ dfi.rows, row.length = issueColumns.length) := by
  obtain ⟨commits, -, hdfc⟩ := fetch_commits_ok getenv api repo maxc dfc hc
  obtain ⟨issues, -, hdfi⟩ := fetch_issues_ok getenv api repo state maxi dfi hi
  subst hdfc
  subst hdfi
  refine ⟨rfl, ?_, ?_, ?_, ?_⟩
  · intro row hrow
    simp only [mkCommitDF, List.mem_map] at hrow
    obtain ⟨r, -, hr⟩ := hrow
    subst hr
    rfl
  · intro hne
    simp only [mkIssueDF, ne_eq, List.map_eq_nil_iff] at hne ⊢
    simp [List.isEmpty_iff, hne]
  · intro hnil
    simp only [mkIssueDF, List.map_eq_nil_iff] at hnil ⊢
    simp [List.isEmpty_iff, hnil]
  · intro row hrow
    simp only [mkIssueDF, List.mem_map] at hrow
    obtain ⟨r, -, hr⟩ := hrow
    subst hr
    rfl

/-- C2 witness: a successful run of both fetches (sample API, token set)
yields a commit table with the five declared columns and five-cell rows, and
an issue table with one record whose columns are the nine declared ones. -/
theorem C2_column_invariant_witness :
    (mkCommitDF (commitLoop none 0 [commitA, commitB, commitC])).columns =
      commitColumns ∧
    ((mkIssueDF (issueLoop none 0 [issPR, issOpen])).rows ≠ [] →
      (mkIssueDF (issueLoop none 0 [issPR, issOpen])).columns = issueColumns) ∧
    (mkIssueDF (issueLoop none 0 [issPR, issOpen])).columns = issueColumns := by
  have h := C2_column_invariant envTok apiSample "octo/repo" "all" none none
    (mkCommitDF (commitLoop none 0 [commitA, commitB, commitC]))
    (mkIssueDF (issueLoop none 0 [issPR, issOpen])) rfl rfl
  exact ⟨h.1, h.2.2.1, h.2.2.1 (by decide)⟩

/-- C5: for a positive limit `m`, the issue fetch applies the cutoff to the
raw enumeration index before the pull-request filter: the emitted records are
exactly the normalizations of the non-pull-request entries among the first
`m` upstream entries (pull requests counting toward the `m`), so the run
emits at most `m` — and possibly fewer — issue records. -/
theorem C5_cutoff_before_filter (getenv : String → Option String)
    (api : GithubAPI) (repo state : String) (issues : List UpstreamIssue)
    (m : Int)
    (hrepo : api.repoLookup repo = Except.ok ())
    (his : api.issuesOf repo state = Except.ok issues)
    (hm : 0 < m) :
    (fetch_issues getenv api repo state (some m)).1 =
      Except.ok (mkIssueDF (((issues.take m.toNat).filter
        (fun i => !i.pull_request)).map normalize_issue)) ∧
    (fetch_issues getenv api repo state (some m)).1.map (fun df => df.rows.length) =
      Except.ok ((issues.take m.toNat).filter (fun i => !i.pull_request)).length ∧
    ((issues.take m.toNat).filter (fun i => !i.pull_request)).length ≤ m.toNat := by
  have hm0 : m ≠ 0 := by omega
  have hloop : issueLoop (some m) 0 issues =
      ((issues.take m.toNat).filter (fun i => !i.pull_request)).map
        normalize_issue := by
    have := issueLoop_some m hm0 issues 0
    simpa using this
  refine ⟨?_, ?_, ?_⟩
  · unfold fetch_issues
    rw [hrepo, his]
    simp [hloop]
  · unfold fetch_issues
    rw [hrepo, his]
    simp [hloop, mkIssueDF, Except.map]
  · calc ((issues.take m.toNat).filter (fun i => !i.pull_request)).length
        ≤ (issues.take m.toNat).length := List.length_filter_le _ _
      _ ≤ m.toNat := by simp [List.length_take]

/-- C5 witness: the sample upstream collection starts with a pull request
followed by a real issue; with `limit = 2` the fetch enumerates both entries
(the pull request counts toward the limit) and emits exactly 1 record —
fewer than the limit. -/
theorem C5_cutoff_before_filter_witness :
    (fetch_issues envNoTok apiSample "octo/repo" "all" (some 2)).1.map
        (fun df => df.rows.length) = Except.ok 1 ∧
    (1 : Nat) < 2 := by
  have h := C5_cutoff_before_filter envNoTok apiSample "octo/repo" "all"
    [issPR, issOpen] 2 rfl rfl (by decide)
  refine ⟨?_, by decide⟩
  rw [h.2.1]
  rfl

/-- C6 (counterexample): `open_duration_days` is not the truncated number of
days between the timestamps: on an issue whose `closed_at` lies 86401 seconds
before `created_at`, the code (Python `timedelta.days`, i.e. floor division)
yields `-2`, while truncation toward zero would yield `-1`. -/
theorem C6_counterexample :
    (normalize_issue issNeg).open_duration_days = some (-2) ∧
    Int.tdiv ((0 : Int) - 86401) 86400 = -1 ∧
    (normalize_issue issNeg).open_duration_days ≠
      some (Int.tdiv ((0 : Int) - 86401) 86400) := by
  refine ⟨by decide, by decide, by decide⟩

/-- C6 (amended): `open_duration_days` is present exactly when both
`created_at` and `closed_at` are present, and then equals the floor (toward
negative infinity) of `(closed_at - created_at)` in whole days; when
`created_at ≤ closed_at` — every duration a tracker actually produces — the
floor coincides with truncation.  When either timestamp is missing the field
is absent. -/
theorem C6_duration_floor (iss : UpstreamIssue) :
    ((iss.created_at = none ∨ iss.closed_at = none) →
      (normalize_issue iss).open_duration_days = none) ∧
    (∀ c cl, iss.created_at = some c → iss.closed_at = some cl →
      (normalize_issue iss).open_duration_days =
        some (Int.fdiv (cl - c) 86400)) ∧
    (∀ c cl, iss.created_at = some c → iss.closed_at = some cl → c ≤ cl →
      (normalize_issue iss).open_duration_days =
        some (Int.tdiv (cl - c) 86400)) := by
  refine ⟨?_, ?_, ?_⟩
  · rintro (hc | hc)
    · simp [normalize_issue, hc]
    · simp only [normalize_issue, hc]
      cases iss.created_at <;> simp
  · intro c cl hc hcl
    simp [normalize_issue, hc, hcl]
  · intro c cl hc hcl hle
    have hfd : Int.fdiv (cl - c) 86400 = Int.tdiv (cl - c) 86400 :=
      Int.fdiv_eq_tdiv (by omega) (by omega)
    simp [normalize_issue, hc, hcl, hfd]

/-- C6 witness: the spec's example — an issue created at epoch second 0 and
closed four days later (345600 seconds) — gets `open_duration_days = 4`,
and an issue missing `closed_at` gets an absent field. -/
theorem C6_duration_floor_witness :
    (normalize_issue issOpen).open_duration_days =
      some (Int.fdiv (345600 - 0) 86400) ∧
    (normalize_issue issOpen).open_duration_days = some 4 ∧
    (normalize_issue issPR).open_duration_days = none := by
  have h1 := (C6_duration_floor issOpen).2.1 0 345600 rfl rfl
  have h2 := (C6_duration_floor issPR).1 (Or.inr rfl)
  exact ⟨h1, by rw [h1]; decide, h2⟩

/-- Every run of the issue loop is the normalization of the non-pull-request
entries of some prefix-closed selection of the upstream list. -/
theorem issueLoop_shape (maxi : Option Int) (issues : List UpstreamIssue) :
    ∃ S : List UpstreamIssue, S ⊆ issues ∧
      issueLoop maxi 0 issues =
        (S.filter (fun i => !i.pull_request)).map normalize_issue := by
  cases maxi with
  | none => exact ⟨issues, List.Subset.refl _, issueLoop_none issues 0⟩
  | some m =>
    by_cases hm : m = 0
    · subst hm
      exact ⟨issues, List.Subset.refl _, by
        rw [issueLoop_zero issues 0]; exact issueLoop_none issues 0⟩
    · refine ⟨issues.take m.toNat, List.take_subset _ _, ?_⟩
      simpa using issueLoop_some m hm issues 0

/-- C7: for every environment, repository, state and limit, every row of a
successfully fetched issue table comes from an upstream entry that is not
flagged as a pull request: pull-request entries are filtered out before
normalization and never emitted. -/
theorem C7_never_emits_pull_request (getenv : String → Option String)
    (api : GithubAPI) (repo state : String) (maxi : Option Int)
    (issues : List UpstreamIssue) (df : DataFrame) (row : List Cell)
    (his : api.issuesOf repo state = Except.ok issues)
    (hok : (fetch_issues getenv api repo state maxi).1 = Except.ok df)
    (hrow : row ∈ df.rows) :
    ∃ iss, iss ∈ issues ∧ iss.pull_request = false ∧
      row = issueRow (normalize_issue iss) := by
  obtain ⟨issues0, his0, hdf⟩ := fetch_issues_ok getenv api repo state maxi df hok
  rw [his] at his0
  injection his0 with heq
  obtain ⟨S, hsub, hshape⟩ := issueLoop_shape maxi issues0
  subst hdf
  have hrow2 : row ∈ List.map (fun i => issueRow (normalize_issue i))
      (S.filter (fun i => !i.pull_request)) := by
    simpa [mkIssueDF, hshape, List.map_map, Function.comp] using hrow
  obtain ⟨iss, hiss, hrEq⟩ := List.mem_map.mp hrow2
  rw [List.mem_filter] at hiss
  refine ⟨iss, ?_, ?_, hrEq.symm⟩
  · rw [heq]
    exact hsub hiss.1
  · have := hiss.2
    simpa using this

/-- C7 witness: against the sample API (a pull request followed by a real
issue) the single emitted row is the normalization of the non-pull-request
entry. -/
theorem C7_never_emits_pull_request_witness :
    ∃ iss, iss ∈ [issPR, issOpen] ∧ iss.pull_request = false ∧
      issueRow (normalize_issue issOpen) = issueRow (normalize_issue iss) :=
  C7_never_emits_pull_request envNoTok apiSample "octo/repo" "all" none
    [issPR, issOpen] (mkIssueDF (issueLoop none 0 [issPR, issOpen]))
    (issueRow (normalize_issue issOpen)) rfl rfl (by decide)

/-- C8: for every upstream commit, the record's `author`, `email` and `date`
come from the nested authoring identity when it is present and are absent
otherwise, and `message` is exactly the text of the full commit message up to
the first line break (the whole message when it has no line break). -/
theorem C8_commit_field_extraction (c : UpstreamCommit) :
    (normalize_commit c).sha = c.sha ∧
    (∀ a, c.author = some a →
      (normalize_commit c).author = some a.name ∧
      (normalize_commit c).email = some a.email ∧
      (normalize_commit c).date = some (isoformat a.date)) ∧
    (c.author = none →
      (normalize_commit c).author = none ∧
      (normalize_commit c).email = none ∧
      (normalize_commit c).date = none) ∧
    (normalize_commit c).message.data =
      c.message.data.takeWhile (fun ch => ch != '\n') := by
  refine ⟨rfl, ?_, ?_, ?_⟩
  · intro a ha
    simp [normalize_commit, ha]
  · intro ha
    simp [normalize_commit, ha]
  · simp [normalize_commit, firstLine, firstLineAux_eq_takeWhile]

/-- C8 witness: the spec's example — the commit whose full message is
`"fix bug\n\ndetails"` yields `message = "fix bug"`, its author fields come
from the nested identity, and the single-line message `"add feature"` is kept
whole. -/
theorem C8_commit_field_extraction_witness :
    (normalize_commit commitA).author = some "Alice" ∧
    (normalize_commit commitA).message.data =
      ("fix bug\n\ndetails" : String).data.takeWhile (fun ch => ch != '\n') ∧
    (normalize_commit commitA).message = "fix bug" ∧
    (normalize_commit commitB).message = "add feature" ∧
    (normalize_commit commitC).author = none := by
  have h := C8_commit_field_extraction commitA
  have ha := (h.2.1 { name := "Alice", email := "alice@example.com", date := 100 }
    rfl).1
  have hcn := (C8_commit_field_extraction commitC).2.2.1 rfl
  exact ⟨ha, h.2.2.2, by decide, by decide, hcn.1⟩

/-- C9: an empty `GITHUB_TOKEN` is treated exactly as an absent one — the
commit fetch fails with the configuration error before any client or network
event, the issue fetch proceeds with an anonymous client, both behave
identically to the absent-variable run — and, for every environment
whatsoever, neither fetch ever constructs the client with an empty
credential. -/
theorem C9_empty_token_as_absent (getenv : String → Option String)
    (api : GithubAPI) (repo state : String) (maxc maxi : Option Int) :
    (getenv "GITHUB_TOKEN" = some "" →
      fetch_commits getenv api repo maxc =
        fetch_commits (fun _ => none) api repo maxc ∧
      (fetch_commits getenv api repo maxc).1 =
        Except.error "GITHUB_TOKEN environment variable not set" ∧
      (fetch_commits getenv api repo maxc).2 = [] ∧
      fetch_issues getenv api repo state maxi =
        fetch_issues (fun _ => none) api repo state maxi ∧
      Event.clientInit ClientAuth.anonymous ∈
        (fetch_issues getenv api repo state maxi).2) ∧
    Event.clientInit (ClientAuth.token "") ∉
      (fetch_commits getenv api repo maxc).2 ∧
    Event.clientInit (ClientAuth.token "") ∉
      (fetch_issues getenv api repo state maxi).2 := by
  refine ⟨?_, ?_, ?_⟩
  · intro h
    have ht : tokenTruthy (getenv "GITHUB_TOKEN") = false := by
      rw [h]; rfl
    have hcg : fetch_commits getenv api repo maxc =
        (Except.error "GITHUB_TOKEN environment variable not set",
          ([] : List Event)) := by
      unfold fetch_commits; simp [ht]
    have hcn : fetch_commits (fun _ => none : String → Option String)
        api repo maxc =
        (Except.error "GITHUB_TOKEN environment variable not set",
          ([] : List Event)) := by
      unfold fetch_commits; simp [tokenTruthy]
    have hieq : fetch_issues getenv api repo state maxi =
        fetch_issues (fun _ => none) api repo state maxi := by
      unfold fetch_issues
      rw [h]
      simp [tokenTruthy]
    refine ⟨hcg.trans hcn.symm, ?_, ?_, hieq, ?_⟩
    · rw [hcg]
    · rw [hcg]
    · unfold fetch_issues
      rw [h]
      cases hr : api.repoLookup repo with
      | error e => simp [tokenTruthy]
      | ok u =>
        cases hc : api.issuesOf repo state with
        | error e => simp [tokenTruthy]
        | ok issues => simp [tokenTruthy]
  · intro hmem
    obtain ⟨ha, ht⟩ := fetch_commits_trace_auth getenv api repo maxc _ hmem
    injection ha with hs
    cases henv : getenv "GITHUB_TOKEN" with
    | none => rw [henv] at ht; simp [tokenTruthy] at ht
    | some s =>
      rw [henv] at ht hs
      simp [tokenTruthy] at ht
      simp [Option.getD] at hs
      exact ht hs.symm
  · intro hmem
    have ha := fetch_issues_trace_auth getenv api repo state maxi _ hmem
    by_cases ht : tokenTruthy (getenv "GITHUB_TOKEN") = true
    · rw [if_pos ht] at ha
      injection ha with hs
      cases henv : getenv "GITHUB_TOKEN" with
      | none => rw [henv] at ht; simp [tokenTruthy] at ht
      | some s =>
        rw [henv] at ht hs
        simp [tokenTruthy] at ht
        simp [Option.getD] at hs
        exact ht hs.symm
    · rw [if_neg ht] at ha
      simp at ha

/-- C9 witness: with `GITHUB_TOKEN` set to the empty string, the commit fetch
against the sample API fails with the configuration error and the issue fetch
constructs an anonymous client. -/
theorem C9_empty_token_as_absent_witness :
    (fetch_commits envEmptyTok apiSample "octo/repo" none).1 =
      Except.error "GITHUB_TOKEN environment variable not set" ∧
    Event.clientInit ClientAuth.anonymous ∈
      (fetch_issues envEmptyTok apiSample "octo/repo" "all" none).2 := by
  have h := C9_empty_token_as_absent envEmptyTok apiSample "octo/repo" "all"
    none none
  exact ⟨(h.1 rfl).2.1, (h.1 rfl).2.2.2.2⟩

/-- C10: for both sub-commands, when the fetch fails (configuration or
transport error) the run terminates with that error and the file system is
left untouched at every path: the output CSV is written only after the whole
fetch has completed successfully. -/
theorem C10_no_partial_output (getenv : String → Option String)
    (api : GithubAPI) (cmd : Command) (fs : FS) (e : String)
    (h : (main_run getenv api cmd fs).2 = Except.error e) :
    (main_run getenv api cmd fs).1 = fs := by
  cases cmd with
  | fetchCommits repo maxc out =>
    simp only [main_run] at h ⊢
    cases hfc : (fetch_commits getenv api repo maxc).1 with
    | error e2 => simp [hfc]
    | ok df => rw [hfc] at h; simp at h
  | fetchIssues repo state maxi out =>
    simp only [main_run] at h ⊢
    cases hfc : (fetch_issues getenv api repo state maxi).1 with
    | error e2 => simp [hfc]
    | ok df => rw [hfc] at h; simp at h

/-- C10 witness: a `fetch-commits` run without a token fails with the
configuration error and leaves the (empty) file system exactly as it was: no
output file is created. -/
theorem C10_no_partial_output_witness :
    (main_run envNoTok apiSample
        (Command.fetchCommits "octo/repo" none "out.csv") fsEmpty).1 =
      fsEmpty :=
  C10_no_partial_output envNoTok apiSample
    (Command.fetchCommits "octo/repo" none "out.csv") fsEmpty
    "GITHUB_TOKEN environment variable not set" rfl
